import Mathlib

/-!
Verification of `ecs-agent/api/container/restart/restart_tracker.go`.

The Go file defines a per-container `RestartTracker` holding a `RestartPolicy`
and a restart counter, with three methods: `GetRestartCount`, `RecordRestart`,
and `ShouldRestart`.  We embed the data model and the three methods shallowly:

* `time.Time` and `time.Duration` are modelled as `Int` nanosecond values;
  `time.Since(startedAt)` becomes `now - startedAt` with the wall clock `now`
  passed explicitly.
* the optional exit code `*int` becomes `Option Int`;
* the external `apicontainerstatus.ContainerStatus` enumeration is modelled as
  a closed inductive type; `ShouldRestart` only compares it with
  `ContainerStopped`;
* methods that mutate the receiver return the updated record.
-/

/-- The `apicontainerstatus.ContainerStatus` enumeration from the external
status package.  The restart code only distinguishes `ContainerStopped` from
every other value. -/
inductive ContainerStatus where
  | ContainerStatusNone
  | ContainerManifestPulled
  | ContainerPulled
  | ContainerCreated
  | ContainerRunning
  | ContainerResourcesProvisioned
  | ContainerStopped
  | ContainerZombie
  deriving DecidableEq

/-- `RestartPolicy` struct: `Enabled bool`, `IgnoredExitCodes []int`,
`AttemptResetPeriod time.Duration` (a duration in nanoseconds, as `Int`). -/
structure RestartPolicy where
  Enabled : Bool
  IgnoredExitCodes : List Int
  AttemptResetPeriod : Int
  deriving DecidableEq

/-- `RestartTracker` struct: `RestartCount int` and the stored
`restartPolicy RestartPolicy`. -/
structure RestartTracker where
  RestartCount : Int
  restartPolicy : RestartPolicy
  deriving DecidableEq

/-- `NewRestartTracker(restartPolicy RestartPolicy) *RestartTracker`: stores
the policy; `RestartCount` is left at the Go zero value `0`. -/
def NewRestartTracker (restartPolicy : RestartPolicy) : RestartTracker :=
  { RestartCount := 0, restartPolicy := restartPolicy }

/-- `func (rt *RestartTracker) GetRestartCount() int`. -/
def RestartTracker.GetRestartCount (rt : RestartTracker) : Int :=
  rt.RestartCount

/-- `func (rt *RestartTracker) RecordRestart()`: `rt.RestartCount += 1`. -/
def RestartTracker.RecordRestart (rt : RestartTracker) : RestartTracker :=
  { rt with RestartCount := rt.RestartCount + 1 }

/-- The `for _, ignoredCode := range rt.restartPolicy.IgnoredExitCodes` loop of
`ShouldRestart`: at the first element equal to `*exitCode` it early-returns the
message `fmt.Sprintf("exit code %d should be ignored", *exitCode)`; if the loop
finishes it returns nothing. -/
def ignoredExitCodeMessage : List Int → Int → Option String
  | [], _ => none
  | ignoredCode :: rest, exitCode =>
    if ignoredCode = exitCode then
      some ("exit code " ++ toString exitCode ++ " should be ignored")
    else
      ignoredExitCodeMessage rest exitCode

/-- `func (rt *RestartTracker) ShouldRestart(exitCode *int, startedAt time.Time,
desiredStatus apicontainerstatus.ContainerStatus) (bool, string)`, with the
wall clock `now` made explicit so that `time.Since(startedAt)` is
`now - startedAt`. -/
def RestartTracker.ShouldRestart (rt : RestartTracker) (exitCode : Option Int)
    (startedAt : Int) (desiredStatus : ContainerStatus) (now : Int) :
    Bool × String :=
  if !rt.restartPolicy.Enabled then
    (false, "restart policy is not enabled")
  else if desiredStatus = ContainerStatus.ContainerStopped then
    (false, "container's desired status is stopped")
  else
    match exitCode with
    | none => (false, "exit code is nil")
    | some code =>
      match ignoredExitCodeMessage rt.restartPolicy.IgnoredExitCodes code with
      | some msg => (false, msg)
      | none =>
        if now - startedAt < rt.restartPolicy.AttemptResetPeriod then
          (false, "attempt reset period has not elapsed")
        else
          (true, "")

/-! Helper lemmas about the ignored-exit-code loop. -/

/-- If the exit code is not a member of the list, the loop falls through. -/
theorem ignoredExitCodeMessage_eq_none {l : List Int} {c : Int} (h : c ∉ l) :
    ignoredExitCodeMessage l c = none := by
  induction l with
  | nil => rfl
  | cons a rest ih =>
    simp only [List.mem_cons, not_or] at h
    simp only [ignoredExitCodeMessage]
    rw [if_neg (fun hac => h.1 (hac.symm)), ih h.2]

/-- If the exit code is a member of the list, the loop returns the formatted
message, no matter where in the list the match occurs. -/
theorem ignoredExitCodeMessage_eq_some {l : List Int} {c : Int} (h : c ∈ l) :
    ignoredExitCodeMessage l c =
      some ("exit code " ++ toString c ++ " should be ignored") := by
  induction l with
  | nil => cases h
  | cons a rest ih =>
    simp only [ignoredExitCodeMessage]
    by_cases hac : a = c
    · rw [if_pos hac]
    · rw [if_neg hac]
      rcases List.mem_cons.mp h with h1 | h2
      · exact absurd h1.symm hac
      · exact ih h2

/-! Claim theorems. -/

/-- C1: for an enabled policy, a non-stopped desired status, and a present
exit code not among the ignored codes, `ShouldRestart` returns
`(false, "attempt reset period has not elapsed")` exactly when the elapsed
time `now - startedAt` is strictly below `AttemptResetPeriod`, and
`(true, "")` whenever the elapsed time is at least the period, the equality
boundary included. -/
theorem shouldRestart_attemptResetPeriod (rt : RestartTracker) (c : Int)
    (startedAt : Int) (desiredStatus : ContainerStatus) (now : Int)
    (hEn : rt.restartPolicy.Enabled = true)
    (hSt : desiredStatus ≠ ContainerStatus.ContainerStopped)
    (hIg : c ∉ rt.restartPolicy.IgnoredExitCodes) :
    (now - startedAt < rt.restartPolicy.AttemptResetPeriod →
      rt.ShouldRestart (some c) startedAt desiredStatus now =
        (false, "attempt reset period has not elapsed")) ∧
    (rt.restartPolicy.AttemptResetPeriod ≤ now - startedAt →
      rt.ShouldRestart (some c) startedAt desiredStatus now = (true, "")) := by
  simp only [RestartTracker.ShouldRestart, hEn, Bool.not_true, Bool.false_eq_true,
    if_false, if_neg hSt, ignoredExitCodeMessage_eq_none hIg]
  constructor
  · intro hLt
    rw [if_pos hLt]
  · intro hGe
    rw [if_neg (not_lt.mpr hGe)]

/-- Witness for C1 at concrete inputs, exercising both sides of the boundary:
with `AttemptResetPeriod = 60`, elapsed time exactly `60` restarts and elapsed
time `59` is blocked. -/
theorem shouldRestart_attemptResetPeriod_witness :
    (NewRestartTracker ⟨true, [0], 60⟩).ShouldRestart (some 1) 0
      ContainerStatus.ContainerRunning 60 = (true, "") ∧
    (NewRestartTracker ⟨true, [0], 60⟩).ShouldRestart (some 1) 0
      ContainerStatus.ContainerRunning 59 =
      (false, "attempt reset period has not elapsed") :=
  ⟨(shouldRestart_attemptResetPeriod (NewRestartTracker ⟨true, [0], 60⟩) 1 0
      ContainerStatus.ContainerRunning 60 (by decide) (by decide)
      (by decide)).2 (by decide),
   (shouldRestart_attemptResetPeriod (NewRestartTracker ⟨true, [0], 60⟩) 1 0
      ContainerStatus.ContainerRunning 59 (by decide) (by decide)
      (by decide)).1 (by decide)⟩

/-- C2: when the stored policy is disabled, `ShouldRestart` returns
`(false, "restart policy is not enabled")` whatever the exit code, start time,
desired status and current time are. -/
theorem shouldRestart_disabled (rt : RestartTracker) (exitCode : Option Int)
    (startedAt : Int) (desiredStatus : ContainerStatus) (now : Int)
    (hEn : rt.restartPolicy.Enabled = false) :
    rt.ShouldRestart exitCode startedAt desiredStatus now =
      (false, "restart policy is not enabled") := by
  unfold RestartTracker.ShouldRestart
  rw [hEn]
  rfl

/-- Witness for C2 at concrete inputs: the policy has every other field set in
a way that would otherwise permit a restart. -/
theorem shouldRestart_disabled_witness :
    (NewRestartTracker ⟨false, [], 0⟩).ShouldRestart (some 1) 0
      ContainerStatus.ContainerRunning 100 =
      (false, "restart policy is not enabled") :=
  shouldRestart_disabled (NewRestartTracker ⟨false, [], 0⟩) (some 1) 0
    ContainerStatus.ContainerRunning 100 rfl

/-- C3: with an enabled policy, a stopped desired status returns
`(false, "container's desired status is stopped")` for every exit code
(an ignored one included) and every start time; the check sits before the
exit-code and reset-period checks, so its reason is the one surfaced. -/
theorem shouldRestart_desiredStopped (rt : RestartTracker)
    (exitCode : Option Int) (startedAt : Int) (now : Int)
    (hEn : rt.restartPolicy.Enabled = true) :
    rt.ShouldRestart exitCode startedAt ContainerStatus.ContainerStopped now =
      (false, "container's desired status is stopped") := by
  unfold RestartTracker.ShouldRestart
  rw [hEn]
  rfl

/-- Witness for C3 at concrete inputs: the exit code is one of the ignored
codes and the reset period has not elapsed, yet the stopped-status reason is
the one returned. -/
theorem shouldRestart_desiredStopped_witness :
    (NewRestartTracker ⟨true, [7], 60⟩).ShouldRestart (some 7) 0
      ContainerStatus.ContainerStopped 10 =
      (false, "container's desired status is stopped") :=
  shouldRestart_desiredStopped (NewRestartTracker ⟨true, [7], 60⟩) (some 7) 0
    10 rfl

/-- C4: with an enabled policy and a non-stopped desired status, an absent
exit code yields the decision `(false, "exit code is nil")`; the operation is
total and this input is not an error. -/
theorem shouldRestart_nilExitCode (rt : RestartTracker) (startedAt : Int)
    (desiredStatus : ContainerStatus) (now : Int)
    (hEn : rt.restartPolicy.Enabled = true)
    (hSt : desiredStatus ≠ ContainerStatus.ContainerStopped) :
    rt.ShouldRestart none startedAt desiredStatus now =
      (false, "exit code is nil") := by
  unfold RestartTracker.ShouldRestart
  rw [hEn]
  simp only [Bool.not_true, Bool.false_eq_true, if_false, if_neg hSt]

/-- Witness for C4 at concrete inputs. -/
theorem shouldRestart_nilExitCode_witness :
    (NewRestartTracker ⟨true, [], 0⟩).ShouldRestart none 0
      ContainerStatus.ContainerRunning 100 = (false, "exit code is nil") :=
  shouldRestart_nilExitCode (NewRestartTracker ⟨true, [], 0⟩) 0
    ContainerStatus.ContainerRunning 100 rfl (by decide)

/-- C5: with an enabled policy, a non-stopped desired status and a present
exit code `c` that is a member of `IgnoredExitCodes` — membership only, the
position of `c` in the list is irrelevant — `ShouldRestart` returns
`(false, "exit code " ++ toString c ++ " should be ignored")`, the decimal
rendering of `c` substituted into the message. -/
theorem shouldRestart_ignoredExitCode (rt : RestartTracker) (c : Int)
    (startedAt : Int) (desiredStatus : ContainerStatus) (now : Int)
    (hEn : rt.restartPolicy.Enabled = true)
    (hSt : desiredStatus ≠ ContainerStatus.ContainerStopped)
    (hIg : c ∈ rt.restartPolicy.IgnoredExitCodes) :
    rt.ShouldRestart (some c) startedAt desiredStatus now =
      (false, "exit code " ++ toString c ++ " should be ignored") := by
  simp only [RestartTracker.ShouldRestart, hEn, Bool.not_true, Bool.false_eq_true,
    if_false, if_neg hSt, ignoredExitCodeMessage_eq_some hIg]

/-- Witness for C5 at concrete inputs: exit code `5` sits in the middle of the
ignored list and the rendered message is literally
`"exit code 5 should be ignored"`. -/
theorem shouldRestart_ignoredExitCode_witness :
    (NewRestartTracker ⟨true, [1, 5, 9], 60⟩).ShouldRestart (some 5) 0
      ContainerStatus.ContainerRunning 100 =
      (false, "exit code 5 should be ignored") := by
  have h := shouldRestart_ignoredExitCode
    (NewRestartTracker ⟨true, [1, 5, 9], 60⟩) 5 0
    ContainerStatus.ContainerRunning 100 rfl (by decide) (by decide)
  rw [h]
  decide

/-- C6: `RecordRestart` adds exactly one, so `n` calls on a freshly
constructed tracker (count `0`) leave `GetRestartCount` equal to `n`. -/
theorem recordRestart_n_times (n : Nat) (p : RestartPolicy) :
    (RestartTracker.RecordRestart^[n] (NewRestartTracker p)).GetRestartCount
      = (n : Int) := by
  induction n with
  | zero => rfl
  | succ k ih =>
    rw [Function.iterate_succ_apply']
    simp only [RestartTracker.GetRestartCount, RestartTracker.RecordRestart] at ih ⊢
    rw [ih]
    push_cast
    ring

/-- One method call of the tracker, with the arguments a caller would pass to
it: `RecordRestart`, `GetRestartCount`, or `ShouldRestart`. -/
inductive TrackerOp where
  | record
  | get
  | query (exitCode : Option Int) (startedAt : Int)
      (desiredStatus : ContainerStatus) (now : Int)
  deriving DecidableEq

/-- The effect of one method call on the receiver.  `RecordRestart` is the
only method whose body assigns to a field of `rt` (`rt.RestartCount += 1`);
the bodies of `GetRestartCount` and `ShouldRestart` contain no assignment, so
their state effect is the identity. -/
def applyTrackerOp (rt : RestartTracker) : TrackerOp → RestartTracker
  | TrackerOp.record => rt.RecordRestart
  | TrackerOp.get => rt
  | TrackerOp.query _ _ _ _ => rt

/-- C7: `GetRestartCount` and `ShouldRestart` leave the tracker (both
`RestartCount` and `restartPolicy`) unchanged for all inputs, every single
method call leaves `RestartCount` at least as large as before, and along any
sequence of method calls the count grows monotonically. -/
theorem tracker_frame_and_monotone :
    (∀ rt : RestartTracker, applyTrackerOp rt TrackerOp.get = rt) ∧
    (∀ (rt : RestartTracker) (exitCode : Option Int) (startedAt : Int)
        (desiredStatus : ContainerStatus) (now : Int),
      applyTrackerOp rt
        (TrackerOp.query exitCode startedAt desiredStatus now) = rt) ∧
    (∀ (rt : RestartTracker) (op : TrackerOp),
      rt.RestartCount ≤ (applyTrackerOp rt op).RestartCount) ∧
    (∀ (rt : RestartTracker) (ops : List TrackerOp),
      rt.RestartCount ≤ (ops.foldl applyTrackerOp rt).RestartCount) := by
  have hstep : ∀ (rt : RestartTracker) (op : TrackerOp),
      rt.RestartCount ≤ (applyTrackerOp rt op).RestartCount := by
    intro rt op
    cases op with
    | record =>
      simp only [applyTrackerOp, RestartTracker.RecordRestart]
      omega
    | get => exact le_refl _
    | query exitCode startedAt desiredStatus now => exact le_refl _
  refine ⟨fun rt => rfl, fun rt _ _ _ _ => rfl, hstep, ?_⟩
  intro rt ops
  induction ops generalizing rt with
  | nil => exact le_refl _
  | cons op rest ih =>
    exact le_trans (hstep rt op) (ih (applyTrackerOp rt op))

/-- C10: the decision ignores the restart count — two trackers with the same
policy but different counts answer every `ShouldRestart` question alike; no
maximum-restart-count cutoff exists in this code. -/
theorem shouldRestart_ignores_count (p : RestartPolicy) (count1 count2 : Int)
    (exitCode : Option Int) (startedAt : Int)
    (desiredStatus : ContainerStatus) (now : Int) :
    RestartTracker.ShouldRestart ⟨count1, p⟩ exitCode startedAt desiredStatus
        now =
      RestartTracker.ShouldRestart ⟨count2, p⟩ exitCode startedAt desiredStatus
        now := rfl

/-! Helper lemmas for the reason-string invariant. -/

/-- Whatever message the ignored-exit-code loop returns is the formatted one. -/
theorem ignoredExitCodeMessage_some_eq {l : List Int} {c : Int} {msg : String}
    (h : ignoredExitCodeMessage l c = some msg) :
    msg = "exit code " ++ toString c ++ " should be ignored" := by
  induction l with
  | nil => cases h
  | cons a rest ih =>
    by_cases hac : a = c
    · simp only [ignoredExitCodeMessage, if_pos hac] at h
      exact (Option.some.inj h).symm
    · simp only [ignoredExitCodeMessage, if_neg hac] at h
      exact ih h

/-- The formatted ignored-exit-code message is never the empty string. -/
theorem exitCodeMessage_ne_empty (s : String) :
    "exit code " ++ s ++ " should be ignored" ≠ "" := by
  intro h
  have hd : ("exit code ".data ++ s.data) ++ " should be ignored".data = [] :=
    congrArg String.data h
  rcases List.append_eq_nil.mp hd with ⟨h1, h2⟩
  rcases List.append_eq_nil.mp h1 with ⟨h3, h4⟩
  exact absurd h3 (by decide)

/-- Exhaustive case analysis of `ShouldRestart`: the result is one of the five
blocking answers or the approval `(true, "")`. -/
theorem shouldRestart_result_cases (rt : RestartTracker) (exitCode : Option Int)
    (startedAt : Int) (desiredStatus : ContainerStatus) (now : Int) :
    rt.ShouldRestart exitCode startedAt desiredStatus now =
        (false, "restart policy is not enabled") ∨
      rt.ShouldRestart exitCode startedAt desiredStatus now =
        (false, "container's desired status is stopped") ∨
      rt.ShouldRestart exitCode startedAt desiredStatus now =
        (false, "exit code is nil") ∨
      (∃ c : Int, exitCode = some c ∧
        rt.ShouldRestart exitCode startedAt desiredStatus now =
          (false, "exit code " ++ toString c ++ " should be ignored")) ∨
      rt.ShouldRestart exitCode startedAt desiredStatus now =
        (false, "attempt reset period has not elapsed") ∨
      rt.ShouldRestart exitCode startedAt desiredStatus now = (true, "") := by
  by_cases hEn : rt.restartPolicy.Enabled = true
  · simp only [RestartTracker.ShouldRestart, hEn, Bool.not_true,
      Bool.false_eq_true, if_false]
    by_cases hSt : desiredStatus = ContainerStatus.ContainerStopped
    · simp only [if_pos hSt]
      refine Or.inr (Or.inl ?_)
      trivial
    · simp only [if_neg hSt]
      cases exitCode with
      | none =>
        refine Or.inr (Or.inr (Or.inl ?_))
        trivial
      | some c =>
        cases hm : ignoredExitCodeMessage rt.restartPolicy.IgnoredExitCodes c
          with
        | none =>
          simp only [hm]
          by_cases hLt :
              now - startedAt < rt.restartPolicy.AttemptResetPeriod
          · simp only [if_pos hLt]
            refine Or.inr (Or.inr (Or.inr (Or.inr (Or.inl ?_))))
            trivial
          · simp only [if_neg hLt]
            refine Or.inr (Or.inr (Or.inr (Or.inr (Or.inr ?_))))
            trivial
        | some msg =>
          simp only [hm]
          rw [ignoredExitCodeMessage_some_eq hm]
          refine Or.inr (Or.inr (Or.inr (Or.inl ⟨c, rfl, ?_⟩)))
          trivial
  · rw [Bool.not_eq_true] at hEn
    simp only [RestartTracker.ShouldRestart, hEn, Bool.not_false, if_true]
    refine Or.inl ?_
    trivial

/-- C9: the boolean and the reason string of `ShouldRestart` are linked — the
answer is `true` exactly when the reason is empty; every blocked answer pairs
`false` with one of the five fixed non-empty reasons, and the approval pairs
`true` with `""`. -/
theorem shouldRestart_true_iff_empty_reason (rt : RestartTracker)
    (exitCode : Option Int) (startedAt : Int)
    (desiredStatus : ContainerStatus) (now : Int) :
    ((rt.ShouldRestart exitCode startedAt desiredStatus now).1 = true ↔
      (rt.ShouldRestart exitCode startedAt desiredStatus now).2 = "") ∧
    ((rt.ShouldRestart exitCode startedAt desiredStatus now).1 = true ∧
        (rt.ShouldRestart exitCode startedAt desiredStatus now).2 = "" ∨
      (rt.ShouldRestart exitCode startedAt desiredStatus now).1 = false ∧
        ((rt.ShouldRestart exitCode startedAt desiredStatus now).2 =
            "restart policy is not enabled" ∨
          (rt.ShouldRestart exitCode startedAt desiredStatus now).2 =
            "container's desired status is stopped" ∨
          (rt.ShouldRestart exitCode startedAt desiredStatus now).2 =
            "exit code is nil" ∨
          (∃ c : Int, exitCode = some c ∧
            (rt.ShouldRestart exitCode startedAt desiredStatus now).2 =
              "exit code " ++ toString c ++ " should be ignored") ∨
          (rt.ShouldRestart exitCode startedAt desiredStatus now).2 =
            "attempt reset period has not elapsed")) := by
  rcases shouldRestart_result_cases rt exitCode startedAt desiredStatus now
    with h | h | h | ⟨c, hc, h⟩ | h | h
  · rw [h]
    exact ⟨by decide, Or.inr ⟨rfl, Or.inl rfl⟩⟩
  · rw [h]
    exact ⟨by decide, Or.inr ⟨rfl, Or.inr (Or.inl rfl)⟩⟩
  · rw [h]
    exact ⟨by decide, Or.inr ⟨rfl, Or.inr (Or.inr (Or.inl rfl))⟩⟩
  · rw [h]
    refine ⟨iff_of_false Bool.false_ne_true
        (exitCodeMessage_ne_empty (toString c)),
      Or.inr ⟨rfl, Or.inr (Or.inr (Or.inr (Or.inl ⟨c, hc, rfl⟩)))⟩⟩
  · rw [h]
    exact ⟨by decide, Or.inr ⟨rfl, Or.inr (Or.inr (Or.inr (Or.inr rfl)))⟩⟩
  · rw [h]
    exact ⟨by decide, Or.inl ⟨rfl, rfl⟩⟩

/-! Aliasing model for the construction claim.  In Go a struct parameter is
copied by value, but a slice field copies only the slice header — the backing
array stays shared between the caller and the copy.  To express what a
caller-side write does after `NewRestartTracker(p)` returns, the backing
arrays live in an explicit heap and a slice value is a reference into it. -/

/-- A Go `[]int` value: the slice header, referring to a backing array. -/
structure GoIntSlice where
  ref : Nat
  deriving DecidableEq

/-- The heap of backing arrays, addressed by slice reference. -/
def GoHeap : Type := Nat → List Int

/-- The elements the slice refers to. -/
def GoHeap.readSlice (heap : GoHeap) (s : GoIntSlice) : List Int :=
  heap s.ref

/-- The Go statement `s[i] = v`: a write through the slice into the shared
backing array. -/
def GoHeap.writeElem (heap : GoHeap) (s : GoIntSlice) (i : Nat) (v : Int) :
    GoHeap :=
  fun r => if r = s.ref then (heap s.ref).set i v else heap r

/-- `RestartPolicy` with its `IgnoredExitCodes []int` field kept as a slice
header, as in Go. -/
structure GoRestartPolicy where
  Enabled : Bool
  IgnoredExitCodes : GoIntSlice
  AttemptResetPeriod : Int
  deriving DecidableEq

/-- `RestartTracker` over the aliasing model of the policy. -/
structure GoRestartTracker where
  RestartCount : Int
  restartPolicy : GoRestartPolicy
  deriving DecidableEq

/-- `NewRestartTracker` under the aliasing model: the policy struct is copied
by value, the slice header included; the backing array is not copied. -/
def NewGoRestartTracker (restartPolicy : GoRestartPolicy) : GoRestartTracker :=
  { RestartCount := 0, restartPolicy := restartPolicy }

/-- `ShouldRestart` under the aliasing model: identical to
`RestartTracker.ShouldRestart` except that the ignored-exit-code loop ranges
over the backing array the stored slice header refers to in the heap. -/
def GoRestartTracker.ShouldRestart (rt : GoRestartTracker) (heap : GoHeap)
    (exitCode : Option Int) (startedAt : Int)
    (desiredStatus : ContainerStatus) (now : Int) : Bool × String :=
  if !rt.restartPolicy.Enabled then
    (false, "restart policy is not enabled")
  else if desiredStatus = ContainerStatus.ContainerStopped then
    (false, "container's desired status is stopped")
  else
    match exitCode with
    | none => (false, "exit code is nil")
    | some code =>
      match ignoredExitCodeMessage
          (heap.readSlice rt.restartPolicy.IgnoredExitCodes) code with
      | some msg => (false, msg)
      | none =>
        if now - startedAt < rt.restartPolicy.AttemptResetPeriod then
          (false, "attempt reset period has not elapsed")
        else
          (true, "")

/-- C8 counterexample: take the policy `p` with `Enabled = true`,
`IgnoredExitCodes` a one-element slice holding `0`, and a zero reset period,
in a heap where that backing array is `[0]`.  After `NewRestartTracker(p)`
returns, the caller-side write `p.IgnoredExitCodes[0] = 5` — a mutation of
the ignoredExitCodes sequence of the caller's policy object, the tracker
itself untouched — flips a subsequent `ShouldRestart (some 5) …` call from
`(true, "")` to `(false, "exit code 5 should be ignored")`: the tracker's
copied slice header shares the backing array with the caller's. -/
theorem newRestartTracker_alias_counterexample :
    (NewGoRestartTracker ⟨true, ⟨0⟩, 0⟩).ShouldRestart (fun _ => [0]) (some 5)
        0 ContainerStatus.ContainerRunning 0 = (true, "") ∧
    (NewGoRestartTracker ⟨true, ⟨0⟩, 0⟩).ShouldRestart
        (GoHeap.writeElem (fun _ => [0]) ⟨0⟩ 0 5) (some 5) 0
        ContainerStatus.ContainerRunning 0 =
      (false, "exit code 5 should be ignored") :=
  ⟨by decide, by decide⟩

/-- C8 amended: construction initializes the restart count to zero and copies
the policy struct by value, so a later caller-side write that does not go
through the shared `IgnoredExitCodes` backing array changes no subsequent
`ShouldRestart` answer.  (A write through the shared backing array is visible
to the tracker, as the counterexample shows: the slice header is copied, the
backing array is not.) -/
theorem newRestartTracker_value_copy (p : GoRestartPolicy) (heap : GoHeap)
    (s : GoIntSlice) (i : Nat) (v : Int) (exitCode : Option Int)
    (startedAt : Int) (desiredStatus : ContainerStatus) (now : Int)
    (hs : s.ref ≠ p.IgnoredExitCodes.ref) :
    (NewGoRestartTracker p).RestartCount = 0 ∧
    (NewGoRestartTracker p).ShouldRestart (heap.writeElem s i v) exitCode
        startedAt desiredStatus now =
      (NewGoRestartTracker p).ShouldRestart heap exitCode startedAt
        desiredStatus now := by
  refine ⟨rfl, ?_⟩
  have hread : (heap.writeElem s i v).readSlice
      (NewGoRestartTracker p).restartPolicy.IgnoredExitCodes =
      heap.readSlice (NewGoRestartTracker p).restartPolicy.IgnoredExitCodes := by
    simp only [GoHeap.writeElem, GoHeap.readSlice, NewGoRestartTracker]
    rw [if_neg (fun h => hs h.symm)]
  unfold GoRestartTracker.ShouldRestart
  rw [hread]

/-- Witness for the amended C8 at concrete inputs: a write through an
unrelated slice (reference `1`) leaves the decision unchanged, and the fresh
count is zero. -/
theorem newRestartTracker_value_copy_witness :
    (NewGoRestartTracker ⟨true, ⟨0⟩, 0⟩).RestartCount = 0 ∧
    (NewGoRestartTracker ⟨true, ⟨0⟩, 0⟩).ShouldRestart
        (GoHeap.writeElem (fun _ => [0]) ⟨1⟩ 0 5) (some 5) 0
        ContainerStatus.ContainerRunning 0 =
      (NewGoRestartTracker ⟨true, ⟨0⟩, 0⟩).ShouldRestart (fun _ => [0])
        (some 5) 0 ContainerStatus.ContainerRunning 0 :=
  newRestartTracker_value_copy ⟨true, ⟨0⟩, 0⟩ (fun _ => [0]) ⟨1⟩ 0 5 (some 5)
    0 ContainerStatus.ContainerRunning 0 (by decide)
